import Mathlib

/-!
# UAVLAS landing-beacon driver (`src/drivers/uavlas/uavlas.cpp`)

A shallow embedding of `UAVLAS::read_device_block` (frame decode, checksum,
unit conversion) and `UAVLAS::read_device` (publication of the report and of
the landing-target pose), followed by the properties of the two functions.

The C `float` type is embedded as IEEE-754 binary32 with round to nearest,
ties to even (`F32`).  Machine integers are natural numbers or integers with
explicit reductions modulo the width.
-/

namespace uavlas

/-! ## The C `float` type -/

/-- A binary32 value.  `fin neg m e` stands for `(-1)^neg * m * 2^e`; the values a
`float` can hold are those with `e = -149 ∧ m < 2^23` (zeros and subnormals) or
`-149 ≤ e ≤ 104 ∧ 2^23 ≤ m < 2^24` (normals).  NaN payloads are not tracked. -/
inductive F32 where
  | nan : F32
  | inf (neg : Bool) : F32
  | fin (neg : Bool) (m : Nat) (e : Int) : F32
deriving DecidableEq, Repr

namespace F32

/-- Loop of `bitLength`, bounded by `fuel`. -/
def bitLengthAux : Nat → Nat → Nat
  | 0, _ => 0
  | fuel + 1, n => if n = 0 then 0 else bitLengthAux fuel (n / 2) + 1

/-- Number of significant bits of `n` (`0` for `n = 0`). -/
def bitLength (n : Nat) : Nat := bitLengthAux n n

/-- Round `m * 2^e` to binary32, round to nearest, ties to even.  When `m` carries a
sticky bit in its lowest position it has at least 26 significant bits. -/
def roundPack (neg : Bool) (m : Nat) (e : Int) : F32 :=
  if m = 0 then fin neg 0 (-149)
  else
    let nb : Int := (bitLength m : Int)
    let e1 : Int := max (e + (nb - 24)) (-149)
    if e1 ≤ e then
      if 104 < e1 then inf neg else fin neg (m * 2 ^ (e - e1).toNat) e1
    else
      let sh : Nat := (e1 - e).toNat
      let q : Nat := m / 2 ^ sh
      let r : Nat := m % 2 ^ sh
      let half : Nat := 2 ^ (sh - 1)
      let q1 : Nat := if half < r ∨ (r = half ∧ q % 2 = 1) then q + 1 else q
      let m2 : Nat := if q1 = 2 ^ 24 then 2 ^ 23 else q1
      let e2 : Int := if q1 = 2 ^ 24 then e1 + 1 else e1
      if 104 < e2 then inf neg else fin neg m2 e2

/-- Conversion of an integer to `float`. -/
def ofInt (i : Int) : F32 :=
  roundPack (decide (i < 0)) i.natAbs 0

/-- Operator `/` on `float`. -/
def div : F32 → F32 → F32
  | nan, _ => nan
  | _, nan => nan
  | inf _, inf _ => nan
  | inf s, fin t _ _ => inf (xor s t)
  | fin s _ _, inf t => fin (xor s t) 0 (-149)
  | fin s ma ea, fin t mb eb =>
    if mb = 0 then
      if ma = 0 then nan else inf (xor s t)
    else
      let n : Nat := ma * 2 ^ 64
      let q : Nat := n / mb
      let sticky : Nat := if n % mb = 0 then 0 else 1
      roundPack (xor s t) (2 * q + sticky) (ea - eb - 65)

/-- Operator `*` on `float`. -/
def mul : F32 → F32 → F32
  | nan, _ => nan
  | _, nan => nan
  | inf s, inf t => inf (xor s t)
  | inf s, fin t m _ => if m = 0 then nan else inf (xor s t)
  | fin s m _, inf t => if m = 0 then nan else inf (xor s t)
  | fin s ma ea, fin t mb eb => roundPack (xor s t) (ma * mb) (ea + eb)

/-- Operator `+` on `float`. -/
def add : F32 → F32 → F32
  | nan, _ => nan
  | _, nan => nan
  | inf s, inf t => if s = t then inf s else nan
  | inf s, fin _ _ _ => inf s
  | fin _ _ _, inf t => inf t
  | fin s ma ea, fin t mb eb =>
    let e : Int := min ea eb
    let a : Int := (if s then -1 else 1) * ((ma * 2 ^ (ea - e).toNat : Nat) : Int)
    let b : Int := (if t then -1 else 1) * ((mb * 2 ^ (eb - e).toNat : Nat) : Int)
    let c : Int := a + b
    if c = 0 then fin (s && t) 0 (-149)
    else roundPack (decide (c < 0)) c.natAbs e

/-- The `isfinite` classification. -/
def isFinite : F32 → Bool
  | fin _ _ _ => true
  | _ => false

/-- The values a `float` can hold. -/
def isCanonical : F32 → Bool
  | nan => true
  | inf _ => true
  | fin _ m e =>
    (decide (e = -149) && decide (m < 2 ^ 23)) ||
      (decide (-149 ≤ e) && decide (e ≤ 104) && decide (2 ^ 23 ≤ m) && decide (m < 2 ^ 24))

/-- Literal `1.0f`. -/
def one : F32 := fin false (2 ^ 23) (-23)

/-- Literal `2.0f`. -/
def two : F32 := fin false (2 ^ 23) (-22)

/-- Literal `20.0f`. -/
def c20 : F32 := fin false (5 * 2 ^ 21) (-19)

/-- Literal `100.0f`. -/
def c100 : F32 := fin false (25 * 2 ^ 19) (-17)

/-- Positive zero. -/
def zero : F32 := fin false 0 (-149)

end F32

/-! ## Constants and data types used by the driver -/

/-- Return code `OK`. -/
def OK : Int := 0

/-- Value of the `errno` constant `EIO`. -/
def EIO : Int := 5

/-- Value of the `errno` constant `ENOTTY`. -/
def ENOTTY : Int := 25

/-- The receive buffer `uint8_t bytes[18]`. -/
abbrev Frame := Fin 18 → Fin 256

/-- Conversion of an `int` in `0 .. 65535` to `uint16_t`. -/
def toUint16 (n : Nat) : Nat := n % 65536

/-- Conversion of an `int` in `0 .. 65535` to `int16_t` (two's complement). -/
def toInt16 (n : Nat) : Int :=
  if n % 65536 < 32768 then ((n % 65536 : Nat) : Int) else ((n % 65536 : Nat) : Int) - 65536

/-- The expression `bytes[hi] << 8 | bytes[lo]`, evaluated in `int`. -/
def word (bytes : Frame) (hi lo : Fin 18) : Nat :=
  ((bytes hi).val <<< 8) ||| (bytes lo).val

/-- Modelled from the spec: message `uavlas_report_s` is generated from a uORB message
definition that is not among the sources.  The fields are those the driver assigns; per
the spec `id` and `status` are unsigned 16-bit, the position and velocity fields are
floats, and `snr`, `cl`, `sl` are unsigned 8-bit. -/
structure uavlas_report_s where
  timestamp : Nat
  id : Nat
  status : Nat
  pos_x : F32
  pos_y : F32
  pos_z : F32
  vel_x : F32
  vel_y : F32
  snr : Nat
  cl : Nat
  sl : Nat
deriving DecidableEq, Repr

/-- Modelled from the spec: message `landing_target_pose_s` is generated from a uORB
message definition that is not among the sources.  The fields are those the driver
assigns. -/
structure landing_target_pose_s where
  timestamp : Nat
  is_static : Bool
  rel_pos_valid : Bool
  rel_vel_valid : Bool
  x_rel : F32
  y_rel : F32
  z_rel : F32
  vx_rel : F32
  vy_rel : F32
  cov_x_rel : F32
  cov_y_rel : F32
  cov_vx_rel : F32
  cov_vy_rel : F32
  abs_pos_valid : Bool
  x_abs : F32
  y_abs : F32
  z_abs : F32
deriving DecidableEq, Repr

/-- Modelled from the spec: message `vehicle_local_position_s` is not among the sources.
The fields are those the driver reads. -/
structure vehicle_local_position_s where
  xy_valid : Bool
  x : F32
  y : F32
  z : F32
deriving DecidableEq, Repr

/-- Modelled from the spec: enumeration `TargetMode` is declared in `uavlas.h`, which is
not among the sources.  The spec names `Stationary` and `Moving`; `Other` stands for any
other value the cast `(TargetMode)mode` can produce. -/
inductive TargetMode where
  | Moving : TargetMode
  | Stationary : TargetMode
  | Other (raw : Int) : TargetMode
deriving DecidableEq, Repr

/-- Member `_params`: the cached configuration. -/
structure Params where
  mode : TargetMode
  scale_x : F32
  scale_y : F32
deriving DecidableEq, Repr

/-- The members of class `UAVLAS` that `read_device` and `read_device_block` use.
A publication handle is `none` for `nullptr`.

Modelled from the spec: the declaration of `_read_failures` (`uavlas.h`) is not among
the sources; the spec describes a monotonic failure counter, here a natural number. -/
structure UAVLAS where
  _vehicleLocalPosition_valid : Bool
  _vehicleLocalPosition : vehicle_local_position_s
  _read_failures : Nat
  _uavlasReportPub : Option Nat
  _targetPosePub : Option Nat
  _params : Params
  orb_report : uavlas_report_s
deriving DecidableEq, Repr

/-- What the collaborators of one `read_device` call answer: the clock, the bus transfer
(its return value and the buffer contents it leaves), the handles `orb_advertise` returns,
and the indeterminate initial contents of the local `_target_pose`. -/
structure Env where
  now : Nat
  status : Int
  bytes : Frame
  reportAdvert : Option Nat
  poseAdvert : Option Nat
  stackPose : landing_target_pose_s

/-- Calls made to the publish interface. -/
inductive Event where
  | advertiseReport (r : uavlas_report_s) : Event
  | publishReport (h : Nat) (r : uavlas_report_s) : Event
  | advertisePose (p : landing_target_pose_s) : Event
  | publishPose (h : Nat) (p : landing_target_pose_s) : Event
deriving DecidableEq, Repr

/-- Macro `PX4_ISFINITE`. -/
def PX4_ISFINITE (x : F32) : Bool := x.isFinite

/-! ## The driver -/

/-- The checksum loop `for (uint i=0; i<sizeof(bytes)-1; i++) tcrc+=bytes[i];` on a
`uint8_t` accumulator. -/
def tcrc (bytes : Frame) : Nat :=
  (List.finRange 17).foldl (fun t i => (t + (bytes i.castSucc).val) % 256) 0

/-- The local variables of `read_device_block` parsed from the buffer. -/
structure Locals where
  id : Nat
  stat : Nat
  pos_y : Int
  pos_x : Int
  pos_z : Int
  vel_y : Int
  vel_x : Int
  snr : Nat
  cl : Nat
  sl : Nat
  crc : Nat
deriving DecidableEq, Repr

/-- The declarations `uint16_t id = bytes[1] << 8 | bytes[0];` to `uint8_t crc = bytes[17];`
of `read_device_block`. -/
def locals (bytes : Frame) : Locals :=
  { id := toUint16 (word bytes 1 0)
    stat := toUint16 (word bytes 3 2)
    pos_y := toInt16 (word bytes 5 4)
    pos_x := toInt16 (word bytes 7 6)
    pos_z := toInt16 (word bytes 9 8)
    vel_y := toInt16 (word bytes 11 10)
    vel_x := toInt16 (word bytes 13 12)
    snr := (bytes 14).val
    cl := (bytes 15).val
    sl := (bytes 16).val
    crc := (bytes 17).val }

/-- `UAVLAS::read_device_block`, given the return value `status` of `transfer` and the
buffer contents `bytes` it leaves.  Returns the return value, the updated object and the
updated `*block`. -/
def read_device_block (self : UAVLAS) (status : Int) (bytes : Frame)
    (block : uavlas_report_s) : Int × UAVLAS × uavlas_report_s :=
  if status = OK then
    let l : Locals := locals bytes
    if tcrc bytes ≠ l.crc then
      (- EIO, { self with _read_failures := self._read_failures + 1 }, block)
    else
      (status, self,
        { block with
          id := l.id
          status := l.stat
          pos_x := F32.mul (F32.div (F32.ofInt l.pos_x) F32.c100) self._params.scale_x
          pos_y := F32.mul (F32.div (F32.ofInt l.pos_y) F32.c100) self._params.scale_y
          pos_z := F32.div (F32.ofInt l.pos_z) F32.c100
          vel_x := F32.mul (F32.div (F32.ofInt l.vel_x) F32.c100) self._params.scale_x
          vel_y := F32.mul (F32.div (F32.ofInt l.vel_y) F32.c100) self._params.scale_y
          snr := l.snr
          cl := l.cl
          sl := l.sl })
  else
    (status, { self with _read_failures := self._read_failures + 1 }, block)

/-- `UAVLAS::read_device`.  Returns the return value, the updated object and the calls
made to the publish interface, in order. -/
def read_device (self : UAVLAS) (env : Env) : Int × UAVLAS × List Event :=
  let self1 : UAVLAS := { self with orb_report := { self.orb_report with timestamp := env.now } }
  let res := read_device_block self1 env.status env.bytes self1.orb_report
  let self2 : UAVLAS := { res.2.1 with orb_report := res.2.2 }
  if res.1 ≠ OK then
    (- ENOTTY, self2, [])
  else
    let ev1 : Event :=
      match self2._uavlasReportPub with
      | none => Event.advertiseReport self2.orb_report
      | some h => Event.publishReport h self2.orb_report
    let self3 : UAVLAS :=
      match self2._uavlasReportPub with
      | none => { self2 with _uavlasReportPub := env.reportAdvert }
      | some _ => self2
    let orb_report := self3.orb_report
    if (!self3._vehicleLocalPosition_valid) ||
        (!PX4_ISFINITE orb_report.pos_y || !PX4_ISFINITE orb_report.pos_x ||
          !PX4_ISFINITE orb_report.pos_z) ||
        (orb_report.status != 7) then
      (OK, self3, [ev1])
    else
      let t1 : landing_target_pose_s :=
        { env.stackPose with
          timestamp := orb_report.timestamp
          is_static := decide (self3._params.mode = TargetMode.Stationary)
          rel_pos_valid := true
          rel_vel_valid := true
          x_rel := orb_report.pos_x
          y_rel := orb_report.pos_y
          z_rel := orb_report.pos_z
          vx_rel := orb_report.vel_x
          vy_rel := orb_report.vel_y
          cov_x_rel := F32.div orb_report.pos_z F32.c20
          cov_y_rel := F32.div orb_report.pos_z F32.c20
          cov_vx_rel := F32.div orb_report.pos_z F32.c20
          cov_vy_rel := F32.div orb_report.pos_z F32.c20 }
      let _target_pose : landing_target_pose_s :=
        if self3._vehicleLocalPosition_valid && self3._vehicleLocalPosition.xy_valid then
          { t1 with
            x_abs := F32.add orb_report.pos_x self3._vehicleLocalPosition.x
            y_abs := F32.add orb_report.pos_y self3._vehicleLocalPosition.y
            z_abs := F32.add orb_report.pos_z self3._vehicleLocalPosition.z
            abs_pos_valid := true }
        else
          { t1 with abs_pos_valid := false }
      match self3._targetPosePub with
      | none =>
        (OK, { self3 with _targetPosePub := env.poseAdvert },
          [ev1, Event.advertisePose _target_pose])
      | some h => (OK, self3, [ev1, Event.publishPose h _target_pose])

/-- What the collaborators of one `update` call answer: whether `orb_check` reports a
parameter update, the configuration `update_params` then obtains from `param_get`, the
result of `orb_update` on the vehicle position and the contents of `_vehicleLocalPosition`
it leaves, and the answers for `read_device`. -/
structure Cycle where
  paramsUpdated : Bool
  paramsRead : Params
  positionUpdated : Bool
  positionBuffer : vehicle_local_position_s
  env : Env

/-- `UAVLAS::check_params` with `update_params`. -/
def check_params (self : UAVLAS) (force : Bool) (updated : Bool) (read : Params) : UAVLAS :=
  if updated || force then { self with _params := read } else self

/-- `UAVLAS::update_topics`. -/
def update_topics (self : UAVLAS) (valid : Bool) (buffer : vehicle_local_position_s) : UAVLAS :=
  { self with _vehicleLocalPosition_valid := valid, _vehicleLocalPosition := buffer }

/-- `UAVLAS::update`: one poll cycle.  Returns the updated object and the calls made to the
publish interface. -/
def update (self : UAVLAS) (c : Cycle) : UAVLAS × List Event :=
  let self1 := check_params self false c.paramsUpdated c.paramsRead
  let self2 := update_topics self1 c.positionUpdated c.positionBuffer
  let res := read_device self2 c.env
  (res.2.1, res.2.2)

/-- A sequence of poll cycles. -/
def run (self : UAVLAS) : List Cycle → UAVLAS
  | [] => self
  | c :: cs => run (update self c).1 cs

/-! ## Definitions used to state the properties -/

/-- The poses handed to the publish interface by a sequence of calls. -/
def posesOf : List Event → List landing_target_pose_s
  | [] => []
  | Event.advertisePose p :: es => p :: posesOf es
  | Event.publishPose _ p :: es => p :: posesOf es
  | _ :: es => posesOf es

/-- The reports handed to the publish interface by a sequence of calls. -/
def reportsOf : List Event → List uavlas_report_s
  | [] => []
  | Event.advertiseReport r :: es => r :: reportsOf es
  | Event.publishReport _ r :: es => r :: reportsOf es
  | _ :: es => reportsOf es

/-- The checksum of the frame layout: the sum of bytes 0 to 16, modulo 256. -/
def checksum (bytes : Frame) : Nat :=
  (∑ i : Fin 17, (bytes i.castSucc).val) % 256

/-- Little-endian unsigned 16-bit value of a byte pair. -/
def uint16LE (lo hi : Fin 256) : Nat := lo.val + 256 * hi.val

/-- Little-endian two's-complement signed 16-bit value of a byte pair. -/
def int16LE (lo hi : Fin 256) : Int :=
  if uint16LE lo hi < 32768 then (uint16LE lo hi : Int) else (uint16LE lo hi : Int) - 65536

/-- The object after a failed read: only the failure counter has changed. -/
def bump (self : UAVLAS) : UAVLAS :=
  { self with _read_failures := self._read_failures + 1 }

/-- The report block after a successful decode of `bytes`. -/
def decoded (self : UAVLAS) (bytes : Frame) (block : uavlas_report_s) : uavlas_report_s :=
  { block with
    id := (locals bytes).id
    status := (locals bytes).stat
    pos_x := F32.mul (F32.div (F32.ofInt (locals bytes).pos_x) F32.c100) self._params.scale_x
    pos_y := F32.mul (F32.div (F32.ofInt (locals bytes).pos_y) F32.c100) self._params.scale_y
    pos_z := F32.div (F32.ofInt (locals bytes).pos_z) F32.c100
    vel_x := F32.mul (F32.div (F32.ofInt (locals bytes).vel_x) F32.c100) self._params.scale_x
    vel_y := F32.mul (F32.div (F32.ofInt (locals bytes).vel_y) F32.c100) self._params.scale_y
    snr := (locals bytes).snr
    cl := (locals bytes).cl
    sl := (locals bytes).sl }

/-- The pose `read_device` assembles from report `rep` when the gate passes. -/
def poseOf (self : UAVLAS) (rep : uavlas_report_s) (stack : landing_target_pose_s) :
    landing_target_pose_s :=
  { timestamp := rep.timestamp
    is_static := decide (self._params.mode = TargetMode.Stationary)
    rel_pos_valid := true
    rel_vel_valid := true
    x_rel := rep.pos_x
    y_rel := rep.pos_y
    z_rel := rep.pos_z
    vx_rel := rep.vel_x
    vy_rel := rep.vel_y
    cov_x_rel := F32.div rep.pos_z F32.c20
    cov_y_rel := F32.div rep.pos_z F32.c20
    cov_vx_rel := F32.div rep.pos_z F32.c20
    cov_vy_rel := F32.div rep.pos_z F32.c20
    abs_pos_valid := self._vehicleLocalPosition_valid && self._vehicleLocalPosition.xy_valid
    x_abs :=
      if self._vehicleLocalPosition_valid && self._vehicleLocalPosition.xy_valid then
        F32.add rep.pos_x self._vehicleLocalPosition.x
      else stack.x_abs
    y_abs :=
      if self._vehicleLocalPosition_valid && self._vehicleLocalPosition.xy_valid then
        F32.add rep.pos_y self._vehicleLocalPosition.y
      else stack.y_abs
    z_abs :=
      if self._vehicleLocalPosition_valid && self._vehicleLocalPosition.xy_valid then
        F32.add rep.pos_z self._vehicleLocalPosition.z
      else stack.z_abs }

/-- The gate of `read_device` on report `rep`. -/
def gate (self : UAVLAS) (rep : uavlas_report_s) : Bool :=
  self._vehicleLocalPosition_valid && PX4_ISFINITE rep.pos_y && PX4_ISFINITE rep.pos_x &&
    PX4_ISFINITE rep.pos_z && decide (rep.status = 7)

/-- The report a cycle decodes from the frame of `env`. -/
def reportOf (self : UAVLAS) (env : Env) : uavlas_report_s :=
  decoded self env.bytes { self.orb_report with timestamp := env.now }

/-- The scenario frame of the spec: id 1, status 7, raw `pos_x` 100, checksum `0x6c`. -/
def scenarioFrame : Frame :=
  ![0x01, 0x00, 0x07, 0x00, 0x00, 0x00, 0x64, 0x00, 0x00, 0x00, 0x00, 0x00, 0x00, 0x00,
    0x00, 0x00, 0x00, 0x6c]

/-- A report block holding zeros. -/
def zeroReport : uavlas_report_s :=
  { timestamp := 0, id := 0, status := 0, pos_x := F32.zero, pos_y := F32.zero,
    pos_z := F32.zero, vel_x := F32.zero, vel_y := F32.zero, snr := 0, cl := 0, sl := 0 }

/-- A pose block holding zeros. -/
def zeroPose : landing_target_pose_s :=
  { timestamp := 0, is_static := false, rel_pos_valid := false, rel_vel_valid := false,
    x_rel := F32.zero, y_rel := F32.zero, z_rel := F32.zero, vx_rel := F32.zero,
    vy_rel := F32.zero, cov_x_rel := F32.zero, cov_y_rel := F32.zero, cov_vx_rel := F32.zero,
    cov_vy_rel := F32.zero, abs_pos_valid := false, x_abs := F32.zero, y_abs := F32.zero,
    z_abs := F32.zero }

/-- A freshly constructed driver in mode `Stationary` with the given scale factors, holding
a valid vehicle position (10, 20, 30). -/
def sampleDevice (scale_x scale_y : F32) : UAVLAS :=
  { _vehicleLocalPosition_valid := true
    _vehicleLocalPosition :=
      { xy_valid := true, x := F32.ofInt 10, y := F32.ofInt 20, z := F32.ofInt 30 }
    _read_failures := 0
    _uavlasReportPub := none
    _targetPosePub := none
    _params := { mode := TargetMode.Stationary, scale_x := scale_x, scale_y := scale_y }
    orb_report := zeroReport }

/-- A cycle at time 5 whose transfer returns `status` and leaves `bytes`. -/
def sampleEnv (status : Int) (bytes : Frame) : Env :=
  { now := 5, status := status, bytes := bytes, reportAdvert := some 1, poseAdvert := some 2,
    stackPose := zeroPose }

/-- The frame with id 1, status 7 and raw position (100, 200, 300). -/
def positionFrame : Frame :=
  ![0x01, 0x00, 0x07, 0x00, 0xc8, 0x00, 0x64, 0x00, 0x2c, 0x01, 0x00, 0x00, 0x00, 0x00,
    0x00, 0x00, 0x00, 0x61]

/-- The scenario frame with byte 6 altered from `0x64` to `0x65`, checksum not recomputed. -/
def corruptedFrame : Frame := Function.update scenarioFrame 6 0x65

/-- The sample driver with the vehicle position flagged invalid. -/
def invalidPositionDevice : UAVLAS :=
  { sampleDevice F32.one F32.one with _vehicleLocalPosition_valid := false }

/-! ## Auxiliary facts: binary32 arithmetic -/

namespace F32

theorem literals_exact :
    one = ofInt 1 ∧ two = ofInt 2 ∧ c20 = ofInt 20 ∧ c100 = ofInt 100 ∧ zero = ofInt 0 := by
  decide

theorem literals_canonical :
    isCanonical one = true ∧ isCanonical two = true ∧ isCanonical c20 = true ∧
      isCanonical c100 = true ∧ isCanonical zero = true := by
  decide

/-- Spot checks of the rounding against binary32 encodings: `1/3` is `0x3eaaaaab`, `1/10`
is `0x3dcccccd`, `32767/100` is `0x43a3d5c3`; ties go to even; overflow gives infinity. -/
theorem rounding_samples :
    div (ofInt 1) (ofInt 3) = fin false 11184811 (-25) ∧
    div (ofInt 1) (ofInt 10) = fin false 13421773 (-27) ∧
    div (ofInt 32767) c100 = fin false 10737091 (-15) ∧
    add (ofInt 16777216) (ofInt 1) = ofInt 16777216 ∧
    add (ofInt 16777216) (ofInt 3) = ofInt 16777220 ∧
    mul (fin false (2 ^ 24 - 1) 104) two = inf false ∧
    mul (fin false 3 (-149)) (div one two) = fin false 2 (-149) ∧
    mul (fin false 1 (-149)) (div one two) = zero := by
  decide

end F32

/-! ## Auxiliary facts: the driver -/

theorem finRange_seventeen :
    List.finRange 17 = [0, 1, 2, 3, 4, 5, 6, 7, 8, 9, 10, 11, 12, 13, 14, 15, 16] := by
  decide

theorem tcrc_eq_checksum (bytes : Frame) : tcrc bytes = checksum bytes := by
  simp only [tcrc, checksum, finRange_seventeen, List.foldl, Fin.sum_univ_succ,
    Fin.sum_univ_zero]
  simp only [Fin.castSucc, Fin.castAdd, Fin.castLE, Fin.succ]
  simp
  omega

theorem word_eq (bytes : Frame) (hi lo : Fin 18) :
    word bytes hi lo = uint16LE (bytes lo) (bytes hi) := by
  unfold word uint16LE
  have hlo : (bytes lo).val < 2 ^ 8 := (bytes lo).isLt
  have h := Nat.mul_add_lt_is_or hlo (bytes hi).val
  rw [Nat.shiftLeft_eq, Nat.mul_comm, ← h]
  omega

theorem toUint16_word (bytes : Frame) (hi lo : Fin 18) :
    toUint16 (word bytes hi lo) = uint16LE (bytes lo) (bytes hi) := by
  rw [word_eq]
  unfold toUint16 uint16LE
  have h1 := (bytes lo).isLt
  have h2 := (bytes hi).isLt
  omega

theorem toInt16_word (bytes : Frame) (hi lo : Fin 18) :
    toInt16 (word bytes hi lo) = int16LE (bytes lo) (bytes hi) := by
  rw [word_eq]
  have h1 := (bytes lo).isLt
  have h2 := (bytes hi).isLt
  have h : uint16LE (bytes lo) (bytes hi) % 65536 = uint16LE (bytes lo) (bytes hi) := by
    unfold uint16LE
    omega
  unfold toInt16 int16LE
  rw [h]

theorem read_device_block_match (self : UAVLAS) (bytes : Frame) (block : uavlas_report_s)
    (h : checksum bytes = (bytes 17).val) :
    read_device_block self OK bytes block = (OK, self, decoded self bytes block) := by
  have h2 : tcrc bytes = (locals bytes).crc := by rw [tcrc_eq_checksum, h]; rfl
  simp [read_device_block, h2, decoded]

theorem read_device_block_mismatch (self : UAVLAS) (bytes : Frame) (block : uavlas_report_s)
    (h : checksum bytes ≠ (bytes 17).val) :
    read_device_block self OK bytes block = (- EIO, bump self, block) := by
  have h2 : tcrc bytes ≠ (locals bytes).crc := by rw [tcrc_eq_checksum]; exact h
  simp [read_device_block, h2, bump]

theorem read_device_block_failed (self : UAVLAS) (status : Int) (bytes : Frame)
    (block : uavlas_report_s) (h : status ≠ OK) :
    read_device_block self status bytes block = (status, bump self, block) := by
  simp [read_device_block, h, bump]

theorem checksum_update_ne (bytes : Frame) (i : Fin 18) (v : Fin 256)
    (h : checksum bytes = (bytes 17).val) (hv : v ≠ bytes i) :
    checksum (Function.update bytes i v) ≠ (Function.update bytes i v 17).val := by
  have hv2 : v.val ≠ (bytes i).val := fun hc => hv (Fin.ext hc)
  have hlt := v.isLt
  have hb : ∀ j : Fin 18, (bytes j).val < 256 := fun j => (bytes j).isLt
  have h0 := hb 0; have h1 := hb 1; have h2 := hb 2; have h3 := hb 3; have h4 := hb 4
  have h5 := hb 5; have h6 := hb 6; have h7 := hb 7; have h8 := hb 8; have h9 := hb 9
  have h10 := hb 10; have h11 := hb 11; have h12 := hb 12; have h13 := hb 13
  have h14 := hb 14; have h15 := hb 15; have h16 := hb 16; have h17 := hb 17
  simp only [checksum, Fin.sum_univ_succ, Fin.sum_univ_zero] at h ⊢
  simp only [Fin.castSucc, Fin.castAdd, Fin.castLE, Fin.succ] at h ⊢
  fin_cases i <;> simp [Function.update] at h hv2 ⊢ <;> omega

theorem read_device_failed (self : UAVLAS) (env : Env)
    (h : env.status ≠ OK ∨ checksum env.bytes ≠ (env.bytes 17).val) :
    (read_device self env).1 = - ENOTTY ∧
      (read_device self env).2.1 =
        { bump self with orb_report := { self.orb_report with timestamp := env.now } } ∧
      (read_device self env).2.2 = [] := by
  by_cases hs : env.status = OK
  · have hc : checksum env.bytes ≠ (env.bytes 17).val := by
      rcases h with h | h
      · exact absurd hs h
      · exact h
    have hd := read_device_block_mismatch
      { self with orb_report := { self.orb_report with timestamp := env.now } } env.bytes
      { self.orb_report with timestamp := env.now } hc
    unfold read_device
    simp only [hs, hd]
    simp [bump, OK, EIO]
  · have hd := read_device_block_failed
      { self with orb_report := { self.orb_report with timestamp := env.now } } env.status
      env.bytes { self.orb_report with timestamp := env.now } hs
    unfold read_device
    simp only [hd]
    simp [bump, hs]

theorem read_device_decoded (self : UAVLAS) (env : Env)
    (hs : env.status = OK) (hc : checksum env.bytes = (env.bytes 17).val) :
    (read_device self env).1 = OK ∧
      (read_device self env).2.1.orb_report = reportOf self env ∧
      (read_device self env).2.1._read_failures = self._read_failures ∧
      reportsOf (read_device self env).2.2 = [reportOf self env] ∧
      posesOf (read_device self env).2.2 =
        if gate self (reportOf self env) then [poseOf self (reportOf self env) env.stackPose]
        else [] := by
  have hd := read_device_block_match
    { self with orb_report := { self.orb_report with timestamp := env.now } } env.bytes
    { self.orb_report with timestamp := env.now } hc
  have hdec : decoded { self with orb_report := { self.orb_report with timestamp := env.now } }
      env.bytes { self.orb_report with timestamp := env.now } = reportOf self env := rfl
  rw [hdec] at hd
  unfold read_device
  simp only [hs, hd]
  generalize reportOf self env = rep
  cases hv : self._vehicleLocalPosition_valid <;> cases hxy : self._vehicleLocalPosition.xy_valid <;>
    cases h1 : PX4_ISFINITE rep.pos_y <;> cases h2 : PX4_ISFINITE rep.pos_x <;>
    cases h3 : PX4_ISFINITE rep.pos_z <;> by_cases h4 : rep.status = 7 <;>
    cases h5 : self._uavlasReportPub <;> cases h6 : self._targetPosePub <;>
    simp [gate, poseOf, posesOf, reportsOf, hv, hxy, h1, h2, h3, h4, h5, h6, OK]

theorem scenarioFrame_checksum : checksum scenarioFrame = (scenarioFrame 17).val := by
  decide

theorem positionFrame_checksum : checksum positionFrame = (positionFrame 17).val := by
  decide

theorem read_device_poses (self : UAVLAS) (env : Env) :
    posesOf (read_device self env).2.2 =
      if env.status = OK ∧ checksum env.bytes = (env.bytes 17).val ∧
          gate self (reportOf self env) = true then
        [poseOf self (reportOf self env) env.stackPose]
      else [] := by
  by_cases hs : env.status = OK
  · by_cases hc : checksum env.bytes = (env.bytes 17).val
    · rw [(read_device_decoded self env hs hc).2.2.2.2]
      simp [hs, hc]
    · rw [(read_device_failed self env (Or.inr hc)).2.2]
      simp [hc, posesOf]
  · rw [(read_device_failed self env (Or.inl hs)).2.2]
    simp [hs, posesOf]

theorem read_device_report (self : UAVLAS) (env : Env)
    (h : posesOf (read_device self env).2.2 ≠ []) :
    (read_device self env).2.1.orb_report = reportOf self env := by
  by_cases hs : env.status = OK
  · by_cases hc : checksum env.bytes = (env.bytes 17).val
    · exact (read_device_decoded self env hs hc).2.1
    · rw [(read_device_failed self env (Or.inr hc)).2.2] at h
      simp [posesOf] at h
  · rw [(read_device_failed self env (Or.inl hs)).2.2] at h
    simp [posesOf] at h

theorem mem_poses (self : UAVLAS) (env : Env) (p : landing_target_pose_s)
    (h : p ∈ posesOf (read_device self env).2.2) :
    p = poseOf self (read_device self env).2.1.orb_report env.stackPose ∧
      gate self (read_device self env).2.1.orb_report = true := by
  have hne : posesOf (read_device self env).2.2 ≠ [] := by
    intro hc; rw [hc] at h; simp at h
  rw [read_device_report self env hne]
  rw [read_device_poses] at h
  split at h
  · rename_i hg
    simp at h
    exact ⟨h, hg.2.2⟩
  · simp at h

theorem read_device_failures (self : UAVLAS) (env : Env) :
    (read_device self env).2.1._read_failures =
      if env.status ≠ OK ∨ checksum env.bytes ≠ (env.bytes 17).val then self._read_failures + 1
      else self._read_failures := by
  by_cases h : env.status ≠ OK ∨ checksum env.bytes ≠ (env.bytes 17).val
  · rw [(read_device_failed self env h).2.1, if_pos h]
    rfl
  · rw [if_neg h]
    simp only [not_or, not_not] at h
    exact (read_device_decoded self env h.1 h.2).2.2.1

theorem update_failures_le (self : UAVLAS) (c : Cycle) :
    self._read_failures ≤ (update self c).1._read_failures := by
  unfold update
  simp only
  rw [read_device_failures]
  have h : (update_topics (check_params self false c.paramsUpdated c.paramsRead)
      c.positionUpdated c.positionBuffer)._read_failures = self._read_failures := by
    unfold update_topics check_params
    split <;> rfl
  rw [h]
  split <;> omega

theorem run_failures_le (cs : List Cycle) :
    ∀ self : UAVLAS, self._read_failures ≤ (run self cs)._read_failures := by
  induction cs with
  | nil => intro self; exact Nat.le_refl _
  | cons c cs ih =>
    intro self
    exact Nat.le_trans (update_failures_le self c) (ih (update self c).1)

/-! ## Properties of the frame decoder -/

/-- C1: on a received frame `read_device_block` returns `OK` exactly when the sum of bytes
0 to 16 modulo 256 equals byte 17; a frame whose byte 17 is that sum is never rejected. -/
theorem read_device_block_ok_iff_checksum (self : UAVLAS) (bytes : Frame)
    (block : uavlas_report_s) :
    (read_device_block self OK bytes block).1 = OK ↔ checksum bytes = (bytes 17).val := by
  by_cases h : checksum bytes = (bytes 17).val
  · rw [read_device_block_match self bytes block h]
    simp [h]
  · rw [read_device_block_mismatch self bytes block h]
    simp [h, OK, EIO]

/-- C2: for a frame with a correct checksum the fields are parsed little-endian from the
offsets of the layout table: `id` and `status` from byte pairs 0-1 and 2-3 as unsigned
values, raw `pos_y`, `pos_x`, `pos_z`, `vel_y`, `vel_x` from byte pairs 4-5 to 12-13 as
two's-complement signed values, and `snr`, `cl`, `sl` are bytes 14, 15, 16 unchanged. -/
theorem read_device_block_layout (self : UAVLAS) (bytes : Frame) (block : uavlas_report_s)
    (h : checksum bytes = (bytes 17).val) :
    (locals bytes).id = (bytes 0).val + 256 * (bytes 1).val ∧
    (locals bytes).stat = (bytes 2).val + 256 * (bytes 3).val ∧
    (locals bytes).pos_y = int16LE (bytes 4) (bytes 5) ∧
    (locals bytes).pos_x = int16LE (bytes 6) (bytes 7) ∧
    (locals bytes).pos_z = int16LE (bytes 8) (bytes 9) ∧
    (locals bytes).vel_y = int16LE (bytes 10) (bytes 11) ∧
    (locals bytes).vel_x = int16LE (bytes 12) (bytes 13) ∧
    (read_device_block self OK bytes block).1 = OK ∧
    (read_device_block self OK bytes block).2.2.id = (bytes 0).val + 256 * (bytes 1).val ∧
    (read_device_block self OK bytes block).2.2.status = (bytes 2).val + 256 * (bytes 3).val ∧
    (read_device_block self OK bytes block).2.2.pos_y =
      F32.mul (F32.div (F32.ofInt (int16LE (bytes 4) (bytes 5))) F32.c100)
        self._params.scale_y ∧
    (read_device_block self OK bytes block).2.2.pos_x =
      F32.mul (F32.div (F32.ofInt (int16LE (bytes 6) (bytes 7))) F32.c100)
        self._params.scale_x ∧
    (read_device_block self OK bytes block).2.2.pos_z =
      F32.div (F32.ofInt (int16LE (bytes 8) (bytes 9))) F32.c100 ∧
    (read_device_block self OK bytes block).2.2.vel_y =
      F32.mul (F32.div (F32.ofInt (int16LE (bytes 10) (bytes 11))) F32.c100)
        self._params.scale_y ∧
    (read_device_block self OK bytes block).2.2.vel_x =
      F32.mul (F32.div (F32.ofInt (int16LE (bytes 12) (bytes 13))) F32.c100)
        self._params.scale_x ∧
    (read_device_block self OK bytes block).2.2.snr = (bytes 14).val ∧
    (read_device_block self OK bytes block).2.2.cl = (bytes 15).val ∧
    (read_device_block self OK bytes block).2.2.sl = (bytes 16).val := by
  rw [read_device_block_match self bytes block h]
  simp only [decoded, locals, toUint16_word, toInt16_word, uint16LE]
  simp

/-- Witness of C2 on the scenario frame. -/
theorem read_device_block_layout_witness :
    checksum scenarioFrame = (scenarioFrame 17).val ∧
    (read_device_block (sampleDevice F32.two F32.one) OK scenarioFrame zeroReport).2.2.id
      = 1 ∧
    (read_device_block (sampleDevice F32.two F32.one) OK scenarioFrame zeroReport).2.2.status
      = 7 := by
  have h := read_device_block_layout (sampleDevice F32.two F32.one) scenarioFrame zeroReport
    scenarioFrame_checksum
  refine ⟨scenarioFrame_checksum, ?_, ?_⟩
  · rw [h.2.2.2.2.2.2.2.2.1]; decide
  · rw [h.2.2.2.2.2.2.2.2.2.1]; decide

/-- C3: for a frame with a correct checksum, altering any single byte (index 0 to 17) to a
different value without recomputing the checksum makes `read_device_block` return the
checksum error `- EIO`, raise the failure counter by exactly one, and leave the caller's
report block as it was. -/
theorem read_device_block_single_byte_corruption (self : UAVLAS) (bytes : Frame)
    (block : uavlas_report_s) (i : Fin 18) (v : Fin 256)
    (h : checksum bytes = (bytes 17).val) (hv : v ≠ bytes i) :
    read_device_block self OK (Function.update bytes i v) block =
      (- EIO, { self with _read_failures := self._read_failures + 1 }, block) :=
  read_device_block_mismatch self (Function.update bytes i v) block
    (checksum_update_ne bytes i v h hv)

/-- Witness of C3: byte 6 of the scenario frame altered from `0x64` to `0x65`. -/
theorem read_device_block_single_byte_corruption_witness :
    checksum scenarioFrame = (scenarioFrame 17).val ∧ (0x65 : Fin 256) ≠ scenarioFrame 6 ∧
    read_device_block (sampleDevice F32.two F32.one) OK
        (Function.update scenarioFrame 6 0x65) zeroReport =
      (- EIO, { sampleDevice F32.two F32.one with _read_failures := 1 }, zeroReport) :=
  ⟨scenarioFrame_checksum, by decide,
    read_device_block_single_byte_corruption (sampleDevice F32.two F32.one) scenarioFrame
      zeroReport 6 0x65 scenarioFrame_checksum (by decide)⟩

/-- C4: after a successful decode `read_device` hands a pose to the publish interface exactly
when the vehicle position is flagged valid, `pos_x`, `pos_y`, `pos_z` of the report are
finite and the status is 7; in particular no pose is emitted when the status differs from
7, nor when the status is 7 and `pos_x` is not finite. -/
theorem read_device_pose_iff_gate (self : UAVLAS) (env : Env)
    (hs : env.status = OK) (hc : checksum env.bytes = (env.bytes 17).val) :
    (posesOf (read_device self env).2.2 ≠ [] ↔
      (self._vehicleLocalPosition_valid = true ∧
        PX4_ISFINITE (read_device self env).2.1.orb_report.pos_x = true ∧
        PX4_ISFINITE (read_device self env).2.1.orb_report.pos_y = true ∧
        PX4_ISFINITE (read_device self env).2.1.orb_report.pos_z = true ∧
        (read_device self env).2.1.orb_report.status = 7)) ∧
    ((read_device self env).2.1.orb_report.status ≠ 7 →
      posesOf (read_device self env).2.2 = []) ∧
    ((read_device self env).2.1.orb_report.status = 7 →
      PX4_ISFINITE (read_device self env).2.1.orb_report.pos_x = false →
      posesOf (read_device self env).2.2 = []) := by
  obtain ⟨_, hrep, _, _, hp⟩ := read_device_decoded self env hs hc
  rw [hrep, hp]
  generalize reportOf self env = rep
  unfold gate
  cases self._vehicleLocalPosition_valid <;> cases PX4_ISFINITE rep.pos_y <;>
    cases PX4_ISFINITE rep.pos_x <;> cases PX4_ISFINITE rep.pos_z <;>
    by_cases h4 : rep.status = 7 <;> simp [h4]

/-- Witness of C4: the scenario frame gives a pose with scale factors (2, 1) and none when
`scale_x` is NaN, which makes `pos_x` NaN. -/
theorem read_device_pose_iff_gate_witness :
    (sampleEnv OK scenarioFrame).status = OK ∧
    posesOf (read_device (sampleDevice F32.two F32.one) (sampleEnv OK scenarioFrame)).2.2 ≠ [] ∧
    posesOf (read_device (sampleDevice F32.nan F32.one) (sampleEnv OK scenarioFrame)).2.2 = [] := by
  have h1 := read_device_pose_iff_gate (sampleDevice F32.two F32.one)
    (sampleEnv OK scenarioFrame) rfl scenarioFrame_checksum
  have h2 := read_device_pose_iff_gate (sampleDevice F32.nan F32.one)
    (sampleEnv OK scenarioFrame) rfl scenarioFrame_checksum
  refine ⟨rfl, h1.1.2 ?_, h2.2.2 ?_ ?_⟩
  · decide
  · decide
  · decide

/-- Counterexample to C5 as stated: with status 7, finite position and an invalid vehicle
position, `read_device` does not emit a pose. -/
theorem read_device_invalid_vehicle_position_counterexample :
    (sampleEnv OK positionFrame).status = OK ∧
    checksum positionFrame = (positionFrame 17).val ∧
    (read_device invalidPositionDevice (sampleEnv OK positionFrame)).1 = OK ∧
    (read_device invalidPositionDevice (sampleEnv OK positionFrame)).2.1.orb_report.status = 7 ∧
    PX4_ISFINITE
      (read_device invalidPositionDevice (sampleEnv OK positionFrame)).2.1.orb_report.pos_x
        = true ∧
    PX4_ISFINITE
      (read_device invalidPositionDevice (sampleEnv OK positionFrame)).2.1.orb_report.pos_y
        = true ∧
    PX4_ISFINITE
      (read_device invalidPositionDevice (sampleEnv OK positionFrame)).2.1.orb_report.pos_z
        = true ∧
    invalidPositionDevice._vehicleLocalPosition_valid = false ∧
    posesOf (read_device invalidPositionDevice (sampleEnv OK positionFrame)).2.2 = [] := by
  decide

/-- C5, amended: for a decoded report with status 7 and finite `pos_x`, `pos_y`, `pos_z`,
`read_device` returns `OK` without emitting a pose when the vehicle position is invalid;
when the vehicle position is valid and its `xy_valid` flag is false it emits one pose with
`abs_pos_valid = false` and the relative fields populated from the report. -/
theorem read_device_invalid_vehicle_position (self : UAVLAS) (env : Env)
    (hs : env.status = OK) (hc : checksum env.bytes = (env.bytes 17).val)
    (h7 : (read_device self env).2.1.orb_report.status = 7)
    (hx : PX4_ISFINITE (read_device self env).2.1.orb_report.pos_x = true)
    (hy : PX4_ISFINITE (read_device self env).2.1.orb_report.pos_y = true)
    (hz : PX4_ISFINITE (read_device self env).2.1.orb_report.pos_z = true) :
    (self._vehicleLocalPosition_valid = false →
      (read_device self env).1 = OK ∧ posesOf (read_device self env).2.2 = []) ∧
    (self._vehicleLocalPosition_valid = true →
      self._vehicleLocalPosition.xy_valid = false →
      ∃ p, posesOf (read_device self env).2.2 = [p] ∧ p.abs_pos_valid = false ∧
        p.rel_pos_valid = true ∧ p.rel_vel_valid = true ∧
        p.x_rel = (read_device self env).2.1.orb_report.pos_x ∧
        p.y_rel = (read_device self env).2.1.orb_report.pos_y ∧
        p.z_rel = (read_device self env).2.1.orb_report.pos_z ∧
        p.vx_rel = (read_device self env).2.1.orb_report.vel_x ∧
        p.vy_rel = (read_device self env).2.1.orb_report.vel_y) := by
  obtain ⟨hret, hrep, _, _, hp⟩ := read_device_decoded self env hs hc
  rw [hrep] at h7 hx hy hz ⊢
  rw [hp, hret]
  constructor
  · intro hv
    simp [gate, hv]
  · intro hv hxy
    refine ⟨poseOf self (reportOf self env) env.stackPose, ?_, ?_⟩
    · simp [gate, hv, hx, hy, hz, h7]
    · simp [poseOf, hv, hxy]

/-- Witness of C5, amended: the position frame with an invalid vehicle position, and with a
valid vehicle position whose `xy_valid` flag is false. -/
theorem read_device_invalid_vehicle_position_witness :
    posesOf (read_device invalidPositionDevice
      (sampleEnv OK positionFrame)).2.2 = [] ∧
    ∃ p, posesOf (read_device
        { sampleDevice F32.one F32.one with
          _vehicleLocalPosition :=
            { xy_valid := false, x := F32.ofInt 10, y := F32.ofInt 20, z := F32.ofInt 30 } }
        (sampleEnv OK positionFrame)).2.2 = [p] ∧ p.abs_pos_valid = false :=
  ⟨((read_device_invalid_vehicle_position
      invalidPositionDevice
      (sampleEnv OK positionFrame) rfl positionFrame_checksum (by decide) (by decide)
      (by decide) (by decide)).1 rfl).2,
    ((read_device_invalid_vehicle_position
      { sampleDevice F32.one F32.one with
        _vehicleLocalPosition :=
          { xy_valid := false, x := F32.ofInt 10, y := F32.ofInt 20, z := F32.ofInt 30 } }
      (sampleEnv OK positionFrame) rfl positionFrame_checksum (by decide) (by decide)
      (by decide) (by decide)).2 rfl rfl).imp fun _ hp => ⟨hp.1, hp.2.1⟩⟩

/-- C6: for every emitted pose, if the vehicle position is valid and its `xy_valid` flag is
true then `x_abs`, `y_abs`, `z_abs` are the report's `pos_x`, `pos_y`, `pos_z` plus the
vehicle's `x`, `y`, `z` and `abs_pos_valid` is true, otherwise `abs_pos_valid` is false;
with relative position (1, 2, 3) and vehicle position (10, 20, 30), both flags true, the
absolute position is (11, 22, 33). -/
theorem read_device_absolute_position (self : UAVLAS) (env : Env) (p : landing_target_pose_s)
    (h : p ∈ posesOf (read_device self env).2.2) :
    ((self._vehicleLocalPosition_valid = true ∧ self._vehicleLocalPosition.xy_valid = true) →
      p.x_abs = F32.add (read_device self env).2.1.orb_report.pos_x self._vehicleLocalPosition.x ∧
      p.y_abs = F32.add (read_device self env).2.1.orb_report.pos_y self._vehicleLocalPosition.y ∧
      p.z_abs = F32.add (read_device self env).2.1.orb_report.pos_z self._vehicleLocalPosition.z ∧
      p.abs_pos_valid = true) ∧
    (¬ (self._vehicleLocalPosition_valid = true ∧ self._vehicleLocalPosition.xy_valid = true) →
      p.abs_pos_valid = false) ∧
    ((self._vehicleLocalPosition_valid = true ∧ self._vehicleLocalPosition.xy_valid = true) →
      (read_device self env).2.1.orb_report.pos_x = F32.ofInt 1 →
      (read_device self env).2.1.orb_report.pos_y = F32.ofInt 2 →
      (read_device self env).2.1.orb_report.pos_z = F32.ofInt 3 →
      self._vehicleLocalPosition.x = F32.ofInt 10 →
      self._vehicleLocalPosition.y = F32.ofInt 20 →
      self._vehicleLocalPosition.z = F32.ofInt 30 →
      p.x_abs = F32.ofInt 11 ∧ p.y_abs = F32.ofInt 22 ∧ p.z_abs = F32.ofInt 33 ∧
      p.abs_pos_valid = true) := by
  obtain ⟨hp, _⟩ := mem_poses self env p h
  subst hp
  refine ⟨?_, ?_, ?_⟩
  · rintro ⟨hv, hxy⟩
    simp [poseOf, hv, hxy]
  · intro hn
    cases hv : self._vehicleLocalPosition_valid <;> cases hxy : self._vehicleLocalPosition.xy_valid <;>
      simp_all [poseOf]
  · rintro ⟨hv, hxy⟩ h1 h2 h3 h10 h20 h30
    simp only [poseOf, hv, hxy, h1, h2, h3, h10, h20, h30, Bool.and_self, if_true]
    decide

/-- Witness of C6: the position frame decodes to (1, 2, 3); the vehicle is at (10, 20, 30). -/
theorem read_device_absolute_position_witness :
    ∃ p, posesOf (read_device (sampleDevice F32.one F32.one) (sampleEnv OK positionFrame)).2.2 = [p] ∧
      p.x_abs = F32.ofInt 11 ∧ p.y_abs = F32.ofInt 22 ∧ p.z_abs = F32.ofInt 33 ∧
      p.abs_pos_valid = true := by
  have hmem : poseOf (sampleDevice F32.one F32.one)
      (reportOf (sampleDevice F32.one F32.one) (sampleEnv OK positionFrame)) zeroPose ∈
      posesOf (read_device (sampleDevice F32.one F32.one) (sampleEnv OK positionFrame)).2.2 := by
    decide
  exact ⟨_, by decide,
    (read_device_absolute_position (sampleDevice F32.one F32.one) (sampleEnv OK positionFrame)
      _ hmem).2.2 ⟨rfl, rfl⟩ (by decide) (by decide) (by decide) rfl rfl rfl⟩

/-- C8: for every emitted pose the four relative covariance fields equal `pos_z / 20`, the
relative position and velocity equal the report's `pos_x`, `pos_y`, `pos_z`, `vel_x`,
`vel_y`, `rel_pos_valid` and `rel_vel_valid` are true, and `is_static` is true exactly when
the configured mode is `Stationary`. -/
theorem read_device_relative_block (self : UAVLAS) (env : Env) (p : landing_target_pose_s)
    (h : p ∈ posesOf (read_device self env).2.2) :
    p.cov_x_rel = F32.div (read_device self env).2.1.orb_report.pos_z F32.c20 ∧
    p.cov_y_rel = F32.div (read_device self env).2.1.orb_report.pos_z F32.c20 ∧
    p.cov_vx_rel = F32.div (read_device self env).2.1.orb_report.pos_z F32.c20 ∧
    p.cov_vy_rel = F32.div (read_device self env).2.1.orb_report.pos_z F32.c20 ∧
    p.x_rel = (read_device self env).2.1.orb_report.pos_x ∧
    p.y_rel = (read_device self env).2.1.orb_report.pos_y ∧
    p.z_rel = (read_device self env).2.1.orb_report.pos_z ∧
    p.vx_rel = (read_device self env).2.1.orb_report.vel_x ∧
    p.vy_rel = (read_device self env).2.1.orb_report.vel_y ∧
    p.rel_pos_valid = true ∧ p.rel_vel_valid = true ∧
    (p.is_static = true ↔ self._params.mode = TargetMode.Stationary) := by
  obtain ⟨hp, _⟩ := mem_poses self env p h
  subst hp
  simp [poseOf]

/-- Witness of C8 on the position frame. -/
theorem read_device_relative_block_witness :
    ∃ p, p ∈ posesOf (read_device (sampleDevice F32.one F32.one) (sampleEnv OK positionFrame)).2.2 ∧
      p.cov_x_rel = F32.div (F32.ofInt 3) F32.c20 ∧ p.is_static = true := by
  have hmem : poseOf (sampleDevice F32.one F32.one)
      (reportOf (sampleDevice F32.one F32.one) (sampleEnv OK positionFrame)) zeroPose ∈
      posesOf (read_device (sampleDevice F32.one F32.one) (sampleEnv OK positionFrame)).2.2 := by
    decide
  have h := read_device_relative_block (sampleDevice F32.one F32.one)
    (sampleEnv OK positionFrame) _ hmem
  refine ⟨_, hmem, ?_, ?_⟩
  · rw [h.1]; decide
  · exact h.2.2.2.2.2.2.2.2.2.2.2.2 rfl

/-! ## Failure counting and error reporting -/

/-- C9: every call of `read_device` leaves the failure counter unchanged or raises it by
exactly one; it is raised exactly when the transfer fails or the checksum mismatches, and
then nothing is published; a cycle that decodes its frame but fails the pose gate returns
`OK`, publishes the report, emits no pose and leaves the counter unchanged; over any
sequence of poll cycles the counter never decreases. -/
theorem read_device_failure_counter (self : UAVLAS) (env : Env) :
    ((read_device self env).2.1._read_failures = self._read_failures ∨
      (read_device self env).2.1._read_failures = self._read_failures + 1) ∧
    ((read_device self env).2.1._read_failures = self._read_failures + 1 ↔
      (env.status ≠ OK ∨ checksum env.bytes ≠ (env.bytes 17).val)) ∧
    ((env.status ≠ OK ∨ checksum env.bytes ≠ (env.bytes 17).val) →
      (read_device self env).2.2 = []) ∧
    ((env.status = OK ∧ checksum env.bytes = (env.bytes 17).val ∧
        (self._vehicleLocalPosition_valid = false ∨
          PX4_ISFINITE (read_device self env).2.1.orb_report.pos_x = false ∨
          PX4_ISFINITE (read_device self env).2.1.orb_report.pos_y = false ∨
          PX4_ISFINITE (read_device self env).2.1.orb_report.pos_z = false ∨
          (read_device self env).2.1.orb_report.status ≠ 7)) →
      (read_device self env).1 = OK ∧
      reportsOf (read_device self env).2.2 = [(read_device self env).2.1.orb_report] ∧
      posesOf (read_device self env).2.2 = [] ∧
      (read_device self env).2.1._read_failures = self._read_failures) ∧
    (∀ cs : List Cycle, self._read_failures ≤ (run self cs)._read_failures) := by
  refine ⟨?_, ?_, ?_, ?_, fun cs => run_failures_le cs self⟩
  · rw [read_device_failures]
    split
    · exact Or.inr rfl
    · exact Or.inl rfl
  · rw [read_device_failures]
    constructor
    · intro h
      by_contra hn
      rw [if_neg hn] at h
      omega
    · intro h
      rw [if_pos h]
  · intro h
    exact (read_device_failed self env h).2.2
  · rintro ⟨hs, hc, hg⟩
    obtain ⟨hret, hrep, hf, hr, hp⟩ := read_device_decoded self env hs hc
    rw [hrep] at hg ⊢
    refine ⟨hret, hr, ?_, hf⟩
    rw [hp]
    have : gate self (reportOf self env) = false := by
      unfold gate
      rcases hg with h | h | h | h | h <;> simp [h]
    simp [this]

/-- Witness of C9: a failed transfer, a corrupted frame, and a decoded frame that fails the
pose gate because the vehicle position is invalid. -/
theorem read_device_failure_counter_witness :
    (read_device (sampleDevice F32.one F32.one)
      (sampleEnv (- EIO) scenarioFrame)).2.1._read_failures = 1 ∧
    (read_device (sampleDevice F32.one F32.one)
      (sampleEnv OK corruptedFrame)).2.1._read_failures = 1 ∧
    (read_device (sampleDevice F32.one F32.one) (sampleEnv OK corruptedFrame)).2.2 = [] ∧
    (read_device invalidPositionDevice (sampleEnv OK positionFrame)).1 = OK ∧
    (read_device invalidPositionDevice (sampleEnv OK positionFrame)).2.1._read_failures = 0 :=
  have h1 := read_device_failure_counter (sampleDevice F32.one F32.one)
    (sampleEnv (- EIO) scenarioFrame)
  have h2 := read_device_failure_counter (sampleDevice F32.one F32.one)
    (sampleEnv OK corruptedFrame)
  have h3 := read_device_failure_counter invalidPositionDevice (sampleEnv OK positionFrame)
  ⟨h1.2.1.2 (Or.inl (by decide)), h2.2.1.2 (Or.inr (by decide)),
    h2.2.2.1 (Or.inr (by decide)),
    (h3.2.2.2.1 ⟨rfl, positionFrame_checksum, Or.inl rfl⟩).1,
    (h3.2.2.2.1 ⟨rfl, positionFrame_checksum, Or.inl rfl⟩).2.2.2⟩

/-- Counterexample to C10 as stated: a transfer that fails with status `- EIO` makes
`read_device_block` return the same code as a received frame whose checksum mismatches,
and `read_device` returns the same code in both cases. -/
theorem read_device_block_transfer_error_counterexample :
    (- EIO : Int) ≠ OK ∧
    checksum corruptedFrame ≠ (corruptedFrame 17).val ∧
    (read_device_block (sampleDevice F32.one F32.one) (- EIO) scenarioFrame zeroReport).1 =
      (read_device_block (sampleDevice F32.one F32.one) OK corruptedFrame zeroReport).1 ∧
    (read_device (sampleDevice F32.one F32.one) (sampleEnv (- EIO) scenarioFrame)).1 =
      (read_device (sampleDevice F32.one F32.one) (sampleEnv OK corruptedFrame)).1 := by
  decide

/-- C10, amended: when the transfer fails, whatever the buffer holds, `read_device_block`
leaves the report block unchanged, raises the failure counter by exactly one and returns
the transfer's own status, which is not `OK` and equals the checksum error `- EIO` only
when the transfer returned `- EIO`; `read_device` then returns `- ENOTTY` and publishes
nothing, as it does for a received frame whose checksum mismatches. -/
theorem read_device_block_transfer_error (self : UAVLAS) (env : Env)
    (block : uavlas_report_s) (hs : env.status ≠ OK) :
    (∀ other : Frame, read_device_block self env.status other block =
      (env.status, { self with _read_failures := self._read_failures + 1 }, block)) ∧
    (read_device_block self env.status env.bytes block).1 ≠ OK ∧
    ((read_device_block self env.status env.bytes block).1 = - EIO ↔ env.status = - EIO) ∧
    (read_device self env).1 = - ENOTTY ∧
    (read_device self env).2.1._read_failures = self._read_failures + 1 ∧
    (read_device self env).2.2 = [] ∧
    (∀ bad : Env, bad.status = OK → checksum bad.bytes ≠ (bad.bytes 17).val →
      (read_device self bad).1 = (read_device self env).1) := by
  have hf := read_device_failed self env (Or.inl hs)
  refine ⟨fun other => read_device_block_failed self env.status other block hs, ?_, ?_, hf.1,
    ?_, hf.2.2, ?_⟩
  · rw [read_device_block_failed self env.status env.bytes block hs]
    exact hs
  · rw [read_device_block_failed self env.status env.bytes block hs]
  · rw [hf.2.1]; rfl
  · intro bad _ hb
    rw [hf.1, (read_device_failed self bad (Or.inr hb)).1]

/-- Witness of C10, amended: a transfer failing with `- EIO` on the scenario frame. -/
theorem read_device_block_transfer_error_witness :
    (sampleEnv (- EIO) scenarioFrame).status ≠ OK ∧
    read_device_block (sampleDevice F32.one F32.one) (- EIO) scenarioFrame zeroReport =
      (- EIO, { sampleDevice F32.one F32.one with _read_failures := 1 }, zeroReport) ∧
    (read_device (sampleDevice F32.one F32.one) (sampleEnv (- EIO) scenarioFrame)).1 =
      - ENOTTY :=
  have h := read_device_block_transfer_error (sampleDevice F32.one F32.one)
    (sampleEnv (- EIO) scenarioFrame) zeroReport (by decide)
  ⟨by decide, h.1 scenarioFrame, h.2.2.2.1⟩

end uavlas
